import Mathlib

/-!
Verification development for the persisted-state subsystem of the
atomhooks repository (src/src/useLocalStorage.ts, the draft wrapper in
src/unnamed/part_002, and the older utility variant in src/unnamed/part_003).

Modelling conventions:
* JavaScript runtime values are modelled by the inductive type JVal
  (null, booleans, numbers, strings, arrays, objects).  JS numbers are
  modelled as integers: no claim here depends on floating-point behaviour.
* The browser storage area is a StorageArea: an association list of
  key/value strings plus two failure switches, broken (every access
  throws: storage disabled / access denied) and quotaFull (setItem
  throws: quota exceeded).  Fallible primitives return Except Unit.
* JSON.stringify is implemented concretely as JVal.stringify.
  JSON.parse is a platform primitive, not repository code, so the
  repository functions are parameterised by parse : String -> Option JVal
  (none models a parse exception).
* typeof window === 'undefined' is modelled by a Bool parameter hasWindow.
* A dispatched StorageEvent is a StorageEv record (key, oldValue,
  newValue, sameArea); emitting one appends it to an event list.
* React's useState: the hook's local state is threaded explicitly.  A
  statement like setValue(v) becomes "the value field of the result is v".
  An exception escaping a hook callback (there is no try/catch in
  setStoredValue or remove) is recorded in the Bool field threw; the
  state update enqueued before the throwing statement is kept, as React
  keeps it.
-/

/-- A JavaScript (JSON-representable) runtime value. -/
inductive JVal where
  | jnull
  | jbool (b : Bool)
  | jnum (n : Int)
  | jstr (s : String)
  | jarr (elems : List JVal)
  | jobj (fields : List (String × JVal))

/-- typeof v === 'string'. -/
def JVal.isString : JVal → Bool
  | .jstr _ => true
  | _ => false

/-- JSON string escaping for one character (the cases relevant here). -/
def escapeChar (c : Char) : String :=
  if c = '"' then "\\\""
  else if c = '\\' then "\\\\"
  else if c = '\n' then "\\n"
  else if c = '\t' then "\\t"
  else if c = '\r' then "\\r"
  else String.singleton c

/-- JSON string escaping. -/
def escapeString (s : String) : String :=
  String.join (s.toList.map escapeChar)

mutual

/-- JSON.stringify, modelled concretely on JVal. -/
def JVal.stringify : JVal → String
  | .jnull => "null"
  | .jbool true => "true"
  | .jbool false => "false"
  | .jnum n => toString n
  | .jstr s => "\"" ++ escapeString s ++ "\""
  | .jarr es => "[" ++ stringifyElems es ++ "]"
  | .jobj fs => "\x7b" ++ stringifyFields fs ++ "\x7d"

/-- Comma-separated serialisation of a JSON array's elements. -/
def stringifyElems : List JVal → String
  | [] => ""
  | [v] => v.stringify
  | v :: rest => v.stringify ++ "," ++ stringifyElems rest

/-- Comma-separated serialisation of a JSON object's fields. -/
def stringifyFields : List (String × JVal) → String
  | [] => ""
  | [(k, v)] => "\"" ++ escapeString k ++ "\":" ++ v.stringify
  | (k, v) :: rest =>
      "\"" ++ escapeString k ++ "\":" ++ v.stringify ++ "," ++ stringifyFields rest

end

/-- The browser storage area: stored key/value pairs plus failure switches.
broken models a storage area whose every access throws (disabled /
access denied); quotaFull models setItem throwing (quota exceeded). -/
structure StorageArea where
  items : List (String × String)
  broken : Bool
  quotaFull : Bool

/-- The text stored under a key, ignoring failure switches. -/
def StorageArea.lookup (a : StorageArea) (k : String) : Option String :=
  (a.items.find? (fun p => p.1 == k)).map (fun p => p.2)

/-- localStorage.getItem: throws iff the area is broken. -/
def StorageArea.getItemE (a : StorageArea) (k : String) : Except Unit (Option String) :=
  if a.broken then .error () else .ok (a.lookup k)

/-- localStorage.setItem: throws iff the area is broken or the quota is full. -/
def StorageArea.setItemE (a : StorageArea) (k v : String) : Except Unit StorageArea :=
  if a.broken || a.quotaFull then .error ()
  else .ok { a with items := (k, v) :: a.items.filter (fun p => p.1 != k) }

/-- localStorage.removeItem: throws iff the area is broken. -/
def StorageArea.removeItemE (a : StorageArea) (k : String) : Except Unit StorageArea :=
  if a.broken then .error ()
  else .ok { a with items := a.items.filter (fun p => p.1 != k) }

/-- A dispatched StorageEvent: key, oldValue, newValue, and whether its
storageArea field is the localStorage area the listeners compare against. -/
structure StorageEv where
  key : String
  oldValue : Option String
  newValue : Option String
  sameArea : Bool
deriving DecidableEq, Repr

/-- The argument of setStoredValue: a literal value or a functional update
(newValue instanceof Function). -/
inductive UpdateArg where
  | val (v : JVal)
  | fn (f : JVal → JVal)

/-- valueToStore = newValue instanceof Function ? newValue(value) : newValue. -/
def UpdateArg.resolve : UpdateArg → JVal → JVal
  | .val v, _ => v
  | .fn f, cur => f cur

/-- The encoding branch shared by setStoredValue and setLocalStorage:
typeof v === 'string' ? v : JSON.stringify(v). -/
def encode (v : JVal) : String :=
  match v with
  | .jstr s => s
  | v => v.stringify

/-- Result of one call of a cell operation (setStoredValue / remove):
the cell's local state after the call, the storage area, the dispatched
events, and whether an exception escaped the call. -/
structure CellResult where
  value : JVal
  area : StorageArea
  events : List StorageEv
  threw : Bool

/-- setStoredValue from useLocalStorage (src/src/useLocalStorage.ts lines
29 to 48).  Resolves the update, calls setValue, and when a window exists
encodes, persists and dispatches a storage event.  There is no try/catch:
a throwing setItem (or getItem) lets the exception escape (threw = true)
after the state update has already been enqueued.  Note the dispatched
oldValue is localStorage.getItem(key) evaluated after setItem. -/
def setStoredValue (hasWindow : Bool) (key : String) (st : JVal)
    (area : StorageArea) (u : UpdateArg) : CellResult :=
  let v := u.resolve st
  if hasWindow then
    let text := encode v
    match area.setItemE key text with
    | .error _ => { value := v, area := area, events := [], threw := true }
    | .ok area1 =>
      match area1.getItemE key with
      | .error _ => { value := v, area := area1, events := [], threw := true }
      | .ok old =>
          { value := v, area := area1
            events := [{ key := key, oldValue := old, newValue := some text, sameArea := true }]
            threw := false }
  else { value := v, area := area, events := [], threw := false }

/-- remove from useLocalStorage (src/src/useLocalStorage.ts lines 49 to
62).  setValue(defaultValue); when a window exists, read the old value,
remove the key and dispatch a removal event (newValue null).  There is no
try/catch here either. -/
def removeCell (hasWindow : Bool) (key : String) (defaultValue : JVal)
    (area : StorageArea) : CellResult :=
  if hasWindow then
    match area.getItemE key with
    | .error _ => { value := defaultValue, area := area, events := [], threw := true }
    | .ok old =>
      match area.removeItemE key with
      | .error _ => { value := defaultValue, area := area, events := [], threw := true }
      | .ok area1 =>
          { value := defaultValue, area := area1
            events := [{ key := key, oldValue := old, newValue := none, sameArea := true }]
            threw := false }
  else { value := defaultValue, area := area, events := [], threw := false }

/-- The lazy useState initializer of useLocalStorage (src/src lines 7 to
28): no window gives the default; getItem is wrapped in try/catch; a falsy
item (null or the empty string, the !item check) gives the default; a
string-typed default takes the raw item; otherwise JSON.parse with
fallback to the default. -/
def useLocalStorageInit (parse : String → Option JVal) (hasWindow : Bool)
    (key : String) (defaultValue : JVal) (area : StorageArea) : JVal :=
  if hasWindow then
    match area.getItemE key with
    | .error _ => defaultValue
    | .ok none => defaultValue
    | .ok (some item) =>
      if item == "" then defaultValue
      else if defaultValue.isString then .jstr item
      else
        match parse item with
        | some v => v
        | none => defaultValue
  else defaultValue

/-- handleStorageChange from useLocalStorage (src/src lines 67 to 86): on
an event for this key and storage area, a falsy newValue (null or the
empty string) resets to the default; otherwise a string-typed default
adopts the raw text and any other default adopts the JSON.parse result,
falling back to the default when parsing throws.  Non-matching events
leave the state untouched. -/
def handleStorageChange (parse : String → Option JVal) (key : String)
    (defaultValue : JVal) (cur : JVal) (e : StorageEv) : JVal :=
  if e.key == key && e.sameArea then
    match e.newValue with
    | none => defaultValue
    | some s =>
      if s == "" then defaultValue
      else if defaultValue.isString then .jstr s
      else
        match parse s with
        | some v => v
        | none => defaultValue
  else cur

/-- Result record of getLocalStorage (src/src lines 98 to 134):
{ value: T | null; isNull: boolean }.  JVal.jnull models the null. -/
structure GetResult where
  value : JVal
  isNull : Bool

/-- getDefaultFromConfigs (src/src lines 137 to 141): null when no configs
array is passed, otherwise the defaultValue of the first entry with a
matching key, or null. -/
def getDefaultFromConfigs (key : String)
    (configs : Option (List (String × JVal))) : JVal :=
  match configs with
  | none => .jnull
  | some cfgs =>
    match cfgs.find? (fun c => c.1 == key) with
    | some c => c.2
    | none => .jnull

/-- The fallback chain defaultValue ?? getDefaultFromConfigs(key, configs)
?? null, where the optional parameter defaultValue is an Option JVal
(none models undefined) and ?? moves on for undefined and null alike
(the trailing ?? null is absorbed: getDefaultFromConfigs already yields
null in the not-found cases). -/
def fallbackValue (d : Option JVal) (key : String)
    (configs : Option (List (String × JVal))) : JVal :=
  match d with
  | none => getDefaultFromConfigs key configs
  | some .jnull => getDefaultFromConfigs key configs
  | some v => v

/-- typeof defaultValue === 'string' for the optional parameter
(undefined is not a string). -/
def isStringOpt : Option JVal → Bool
  | some (.jstr _) => true
  | _ => false

/-- getLocalStorage, the current variant (src/src lines 98 to 134).  No
window: fallback with isNull true.  Otherwise getItem inside try/catch;
isNull is item === null (an empty string is NOT absent here); a
string-typed default takes the raw item; otherwise JSON.parse in an inner
try, falling back on parse failure.  Every failure path returns the
fallback chain with isNull true; no exception escapes. -/
def getLocalStorage (parse : String → Option JVal) (hasWindow : Bool)
    (key : String) (defaultValue : Option JVal)
    (configs : Option (List (String × JVal))) (area : StorageArea) : GetResult :=
  if hasWindow then
    match area.getItemE key with
    | .error _ => { value := fallbackValue defaultValue key configs, isNull := true }
    | .ok none => { value := fallbackValue defaultValue key configs, isNull := true }
    | .ok (some item) =>
      if isStringOpt defaultValue then { value := .jstr item, isNull := false }
      else
        match parse item with
        | some parsed => { value := parsed, isNull := false }
        | none => { value := fallbackValue defaultValue key configs, isNull := true }
  else { value := fallbackValue defaultValue key configs, isNull := true }

/-- defaultValue ?? null for the older utility variant (none models an
omitted defaultValue; an explicit null also coalesces to null). -/
def dfltOrNull (d : Option JVal) : JVal :=
  match d with
  | none => .jnull
  | some .jnull => .jnull
  | some v => v

/-- getLocalStorage, the older variant (src/unnamed/part_003 lines 98 to
119), returning T | null directly.  It uses the falsy check !item, so an
empty stored string falls back to defaultValue ?? null, unlike the
current variant. -/
def getLocalStorageV0 (parse : String → Option JVal) (hasWindow : Bool)
    (key : String) (defaultValue : Option JVal) (area : StorageArea) : JVal :=
  if hasWindow then
    match area.getItemE key with
    | .error _ => dfltOrNull defaultValue
    | .ok none => dfltOrNull defaultValue
    | .ok (some item) =>
      if item == "" then dfltOrNull defaultValue
      else if isStringOpt defaultValue then .jstr item
      else
        match parse item with
        | some parsed => parsed
        | none => dfltOrNull defaultValue
  else dfltOrNull defaultValue

/-- Result of setLocalStorage: the storage area and the dispatched events
(no threw field: the whole body is wrapped in try/catch, so no exception
escapes; the catch only logs). -/
structure SetResult where
  area : StorageArea
  events : List StorageEv

/-- setLocalStorage (src/src lines 143 to 164).  No window: no-op.
Otherwise encode, setItem and dispatch, all inside try/catch: a throwing
setItem is caught (console.error) and no event is dispatched.  As in
setStoredValue, the dispatched oldValue is getItem(key) read after
setItem. -/
def setLocalStorage (hasWindow : Bool) (key : String) (v : JVal)
    (area : StorageArea) : SetResult :=
  if hasWindow then
    let text := encode v
    match area.setItemE key text with
    | .error _ => { area := area, events := [] }
    | .ok area1 =>
      match area1.getItemE key with
      | .error _ => { area := area1, events := [] }
      | .ok old =>
          { area := area1
            events := [{ key := key, oldValue := old, newValue := some text, sameArea := true }] }
  else { area := area, events := [] }

/-- The state of useDraftLocalStorage (src/unnamed/part_002 lines 26 to
65): the underlying cell's storedValue and the draftValue kept in a
second useState. -/
structure DraftCell where
  stored : JVal
  draft : JVal

/-- setDraftValue: updates only the draft (no storage interaction). -/
def setDraftValue (s : DraftCell) (x : JVal) : DraftCell :=
  { s with draft := x }

/-- save(): setStoredValue(draftValue) on the underlying cell, followed by
the useEffect on [storedValue] that re-syncs draftValue to the new
storedValue.  Returns the new draft state and the cell call's result
(storage, events, threw). -/
def draftSave (hasWindow : Bool) (key : String) (area : StorageArea)
    (s : DraftCell) : DraftCell × CellResult :=
  let r := setStoredValue hasWindow key s.stored area (.val s.draft)
  ({ stored := r.value, draft := r.value }, r)

/-- reset(): setDraftValue(storedValue). -/
def draftReset (s : DraftCell) : DraftCell :=
  { s with draft := s.stored }

/-- hasChanges = JSON.stringify(draftValue) !== JSON.stringify(storedValue),
recomputed on every render. -/
def hasChanges (s : DraftCell) : Bool :=
  s.draft.stringify != s.stored.stringify

/-- A JSON.parse model that always throws: usable wherever a claim does
not depend on successful parsing. -/
def parseNone : String → Option JVal := fun _ => none

/-- A tiny concrete JSON.parse model that recognises the literal true:
enough to witness claims about the JSON round trip on concrete input. -/
def parseTrueLit : String → Option JVal :=
  fun s => if s == "true" then some (.jbool true) else none

/-! Helper lemmas about the storage primitives. -/

lemma find?_filter_key_eq_none (l : List (String × String)) (k : String) :
    (l.filter (fun p => p.1 != k)).find? (fun p => p.1 == k) = none := by
  induction l with
  | nil => rfl
  | cons p rest ih =>
      cases h : p.1 == k with
      | true => simp [List.filter, bne, h, ih]
      | false => simp [List.filter, bne, h, ih]

lemma encode_eq_stringify (v : JVal) (h : v.isString = false) :
    encode v = v.stringify := by
  cases v <;> first | rfl | simp [JVal.isString] at h

lemma setStoredValue_value (hw : Bool) (key : String) (st : JVal)
    (area : StorageArea) (u : UpdateArg) :
    (setStoredValue hw key st area u).value = u.resolve st := by
  unfold setStoredValue
  dsimp only
  split
  · split
    · rfl
    · split <;> rfl
  · rfl

lemma fallbackValue_no_configs (d : Option JVal) (key : String) :
    fallbackValue d key none = dfltOrNull d := by
  cases d with
  | none => rfl
  | some v => cases v <;> rfl

/-- C1.  The claim says every storage-area exception raised while
setStoredValue persists the value is caught inside the call.  It is not:
setStoredValue has no try/catch, so with a full quota the exception
escapes (threw = true) at this concrete input, refuting the claim. -/
theorem C1_counterexample :
    (setStoredValue true "k" (JVal.jstr "a")
      { items := [], broken := false, quotaFull := true }
      (.val (JVal.jstr "b"))).threw = true := rfl

/-- C1 (amended).  When the storage area throws on setItem (quota
exceeded, disabled or access denied), the exception escapes
setStoredValue (threw = true), but the local state keeps the requested
value (the setValue call precedes the storage access and is not rolled
back), storage is unchanged and no event is dispatched; the imperative
setLocalStorage, by contrast, does catch (its area is unchanged and it
dispatches nothing, with no escaping exception by construction). -/
theorem C1_amended_thm (key : String) (st x : JVal) (area : StorageArea)
    (h : (area.broken || area.quotaFull) = true) :
    (setStoredValue true key st area (.val x)).threw = true ∧
    (setStoredValue true key st area (.val x)).value = x ∧
    (setStoredValue true key st area (.val x)).area = area ∧
    (setStoredValue true key st area (.val x)).events = [] ∧
    (setLocalStorage true key x area).area = area ∧
    (setLocalStorage true key x area).events = [] := by
  simp [setStoredValue, setLocalStorage, StorageArea.setItemE, h, UpdateArg.resolve]

/-- C1 witness: the amended statement at a concrete quota-full area. -/
theorem C1_witness :
    (setStoredValue true "k" (JVal.jstr "a")
      { items := [("k", "a")], broken := false, quotaFull := true }
      (.val (JVal.jstr "b"))).threw = true ∧
    (setStoredValue true "k" (JVal.jstr "a")
      { items := [("k", "a")], broken := false, quotaFull := true }
      (.val (JVal.jstr "b"))).value = JVal.jstr "b" :=
  ⟨(C1_amended_thm "k" (JVal.jstr "a") (JVal.jstr "b")
      { items := [("k", "a")], broken := false, quotaFull := true } rfl).1,
   (C1_amended_thm "k" (JVal.jstr "a") (JVal.jstr "b")
      { items := [("k", "a")], broken := false, quotaFull := true } rfl).2.1⟩

/-- C2.  The claim says the notification published after a successful
write carries the stored text that was in place before the operation.
Evaluating the code at key "k" with prior stored text "a" and written
text "b": both setStoredValue and setLocalStorage dispatch oldValue "b"
(getItem is read after setItem), not the prior "a"; only the removal
event carries the genuine previous text.  The oldValue field of the
platform StorageEvent is specified as the previous value, and remove
computes it correctly before mutating, so the write paths are a slip in
the code rather than in the spec. -/
theorem C2_failing_eval :
    (setStoredValue true "k" (JVal.jstr "a")
      { items := [("k", "a")], broken := false, quotaFull := false }
      (.val (JVal.jstr "b"))).events =
      [{ key := "k", oldValue := some "b", newValue := some "b", sameArea := true }] ∧
    (setLocalStorage true "k" (JVal.jstr "b")
      { items := [("k", "a")], broken := false, quotaFull := false }).events =
      [{ key := "k", oldValue := some "b", newValue := some "b", sameArea := true }] ∧
    (removeCell true "k" (JVal.jstr "d")
      { items := [("k", "a")], broken := false, quotaFull := false }).events =
      [{ key := "k", oldValue := some "a", newValue := none, sameArea := true }] ∧
    (some "b" : Option String) ≠ some "a" := by
  refine ⟨rfl, rfl, rfl, by decide⟩

/-- C3.  The claim says getLocalStorage(k, d) after setLocalStorage(k, t)
returns t unchanged for every string t and string default d, citing both
getLocalStorage variants.  The older variant (src/unnamed/part_003) uses
the falsy !item check, so for the stored empty string it returns the
default instead: a concrete refutation with t = "" and d = "x". -/
theorem C3_counterexample :
    getLocalStorageV0 parseNone true "k" (some (JVal.jstr "x"))
      (setLocalStorage true "k" (JVal.jstr "")
        { items := [], broken := false, quotaFull := false }).area = JVal.jstr "x" ∧
    JVal.jstr "x" ≠ JVal.jstr "" := by
  constructor
  · rfl
  · simp

/-- C3 (amended).  After setLocalStorage(k, t) on a working storage area,
the current getLocalStorage (src/src) returns t unchanged for every
string t and string default d (no JSON round trip: the string-typed
default selects the raw-string branch); the older variant
(src/unnamed/part_003) does so for every non-empty t, and falls back to
the default for the stored empty string. -/
theorem C3_amended_thm (parse : String → Option JVal) (key t d : String)
    (area : StorageArea) (hb : area.broken = false) (hq : area.quotaFull = false) :
    (getLocalStorage parse true key (some (JVal.jstr d)) none
      (setLocalStorage true key (JVal.jstr t) area).area).value = JVal.jstr t ∧
    (t ≠ "" → getLocalStorageV0 parse true key (some (JVal.jstr d))
      (setLocalStorage true key (JVal.jstr t) area).area = JVal.jstr t) := by
  have harea : (setLocalStorage true key (JVal.jstr t) area).area =
      { area with items := (key, t) :: area.items.filter (fun p => p.1 != key) } := by
    simp [setLocalStorage, encode, StorageArea.setItemE, StorageArea.getItemE, hb, hq]
  constructor
  · rw [harea]
    simp [getLocalStorage, StorageArea.getItemE, hb, StorageArea.lookup, List.find?, isStringOpt]
  · intro ht
    rw [harea]
    simp [getLocalStorageV0, StorageArea.getItemE, hb, StorageArea.lookup, List.find?,
      isStringOpt, ht]

/-- C3 witness: the amended statement at key "k", text "hello", default
"d", on an initially empty working storage area. -/
theorem C3_witness :
    (getLocalStorage parseNone true "k" (some (JVal.jstr "d")) none
      (setLocalStorage true "k" (JVal.jstr "hello")
        { items := [], broken := false, quotaFull := false }).area).value = JVal.jstr "hello" ∧
    getLocalStorageV0 parseNone true "k" (some (JVal.jstr "d"))
      (setLocalStorage true "k" (JVal.jstr "hello")
        { items := [], broken := false, quotaFull := false }).area = JVal.jstr "hello" :=
  ⟨(C3_amended_thm parseNone "k" "hello" "d"
      { items := [], broken := false, quotaFull := false } rfl rfl).1,
   (C3_amended_thm parseNone "k" "hello" "d"
      { items := [], broken := false, quotaFull := false } rfl rfl).2 (by decide)⟩

/-- C4.  For every non-string value v (with its JSON.parse model
round-tripping on v's serialisation, the platform guarantee for
JSON-serializable values) and every non-string default d, reading the key
after setLocalStorage(k, v) on a working storage area returns exactly v:
the write stores JSON.stringify(v) and the read parses it back. -/
theorem C4_thm (parse : String → Option JVal) (key : String) (v d : JVal)
    (area : StorageArea) (hb : area.broken = false) (hq : area.quotaFull = false)
    (hv : v.isString = false) (hd : isStringOpt (some d) = false)
    (hparse : parse (JVal.stringify v) = some v) :
    (getLocalStorage parse true key (some d) none
      (setLocalStorage true key v area).area).value = v ∧
    (getLocalStorage parse true key (some d) none
      (setLocalStorage true key v area).area).isNull = false := by
  have harea : (setLocalStorage true key v area).area =
      { area with items := (key, v.stringify) :: area.items.filter (fun p => p.1 != key) } := by
    simp [setLocalStorage, encode_eq_stringify v hv, StorageArea.setItemE,
      StorageArea.getItemE, hb, hq]
  rw [harea]
  simp [getLocalStorage, StorageArea.getItemE, hb, StorageArea.lookup, List.find?,
    hd, hparse]

/-- C4 witness: v = true (a non-string JSON value), default 0, on an
empty working storage area, with the concrete parse model that recognises
the literal true. -/
theorem C4_witness :
    (getLocalStorage parseTrueLit true "k" (some (JVal.jnum 0)) none
      (setLocalStorage true "k" (JVal.jbool true)
        { items := [], broken := false, quotaFull := false }).area).value = JVal.jbool true ∧
    (getLocalStorage parseTrueLit true "k" (some (JVal.jnum 0)) none
      (setLocalStorage true "k" (JVal.jbool true)
        { items := [], broken := false, quotaFull := false }).area).isNull = false :=
  ⟨(C4_thm parseTrueLit "k" (JVal.jbool true) (JVal.jnum 0)
      { items := [], broken := false, quotaFull := false } rfl rfl rfl rfl rfl).1,
   (C4_thm parseTrueLit "k" (JVal.jbool true) (JVal.jnum 0)
      { items := [], broken := false, quotaFull := false } rfl rfl rfl rfl rfl).2⟩

/-- C5.  When the (non-broken) storage area holds the empty string under
the key, the lazy initializer of useLocalStorage takes the falsy !item
branch and the cell's initial value is defaultValue, exactly as the claim
states. -/
theorem C5_thm (parse : String → Option JVal) (key : String)
    (defaultValue : JVal) (area : StorageArea)
    (hb : area.broken = false) (h : area.lookup key = some "") :
    useLocalStorageInit parse true key defaultValue area = defaultValue := by
  simp [useLocalStorageInit, StorageArea.getItemE, hb, h]

/-- C5 witness: a concrete area storing the empty string under "k". -/
theorem C5_witness :
    useLocalStorageInit parseNone true "k" (JVal.jstr "fallback")
      { items := [("k", "")], broken := false, quotaFull := false } = JVal.jstr "fallback" :=
  C5_thm parseNone "k" (JVal.jstr "fallback")
    { items := [("k", "")], broken := false, quotaFull := false } rfl rfl

/-- C6.  The claim says that on a matching notification whose new stored
text is present, a string-typed default adopts the new text verbatim.
handleStorageChange uses the falsy check !e.newValue, so for the present
empty string it adopts the default instead: with default "x" and
newValue "" the cell ends at "x", not at the claimed "". -/
theorem C6_counterexample :
    handleStorageChange parseNone "k" (JVal.jstr "x") (JVal.jstr "cur")
      { key := "k", oldValue := none, newValue := some "", sameArea := true } =
      JVal.jstr "x" ∧
    JVal.jstr "x" ≠ JVal.jstr "" := by
  constructor
  · rfl
  · simp

/-- C6 (amended).  On a bus notification matching the cell's key and
storage area: an absent or empty new stored text makes the cell adopt
defaultValue; a non-empty new text is adopted verbatim under a
string-typed default, and under a non-string default the cell adopts the
JSON.parse result, falling back to defaultValue when parsing throws. -/
theorem C6_amended_thm (parse : String → Option JVal) (key : String)
    (defaultValue cur : JVal) (old : Option String) (s : String) (hs : s ≠ "") :
    handleStorageChange parse key defaultValue cur
      { key := key, oldValue := old, newValue := none, sameArea := true } = defaultValue ∧
    handleStorageChange parse key defaultValue cur
      { key := key, oldValue := old, newValue := some "", sameArea := true } = defaultValue ∧
    (defaultValue.isString = true →
      handleStorageChange parse key defaultValue cur
        { key := key, oldValue := old, newValue := some s, sameArea := true } = JVal.jstr s) ∧
    (defaultValue.isString = false →
      handleStorageChange parse key defaultValue cur
        { key := key, oldValue := old, newValue := some s, sameArea := true } =
        (parse s).getD defaultValue) := by
  refine ⟨by simp [handleStorageChange], by simp [handleStorageChange], ?_, ?_⟩
  · intro hd
    simp [handleStorageChange, hs, hd]
  · intro hd
    cases hp : parse s with
    | none => simp [handleStorageChange, hs, hd, hp]
    | some p => simp [handleStorageChange, hs, hd, hp]

/-- C6 witness: a matching notification carrying the literal true under a
numeric default adopts the parsed value. -/
theorem C6_witness :
    handleStorageChange parseTrueLit "k" (JVal.jnum 1) JVal.jnull
      { key := "k", oldValue := none, newValue := some "true", sameArea := true } =
      JVal.jbool true :=
  ((C6_amended_thm parseTrueLit "k" (JVal.jnum 1) JVal.jnull none "true"
      (by decide)).2.2.2 rfl).trans rfl

/-- C7.  The draft overlay: a draft differing by serialised form from the
committed value makes hasChanges true; save() commits the draft (the
committed value becomes x) and, after the re-sync effect, hasChanges is
false; reset() makes the draft equal the committed value with hasChanges
false; and in general hasChanges is true iff the JSON serialisations of
draft and committed value differ. -/
theorem C7_thm (key : String) (area : StorageArea) (s : DraftCell) (x : JVal)
    (hdiff : JVal.stringify x ≠ JVal.stringify s.stored) :
    hasChanges (setDraftValue s x) = true ∧
    (draftSave true key area (setDraftValue s x)).1.stored = x ∧
    hasChanges (draftSave true key area (setDraftValue s x)).1 = false ∧
    (∀ s2 : DraftCell, (draftReset s2).draft = (draftReset s2).stored ∧
      hasChanges (draftReset s2) = false) ∧
    (∀ s2 : DraftCell, hasChanges s2 = true ↔
      JVal.stringify s2.draft ≠ JVal.stringify s2.stored) := by
  have hval : (setStoredValue true key (setDraftValue s x).stored area
      (.val (setDraftValue s x).draft)).value = x :=
    setStoredValue_value true key (setDraftValue s x).stored area (.val x)
  refine ⟨?_, ?_, ?_, ?_, ?_⟩
  · simp [hasChanges, setDraftValue, hdiff]
  · simp [draftSave, hval]
  · simp [draftSave, hval, hasChanges]
  · intro s2
    exact ⟨rfl, by simp [hasChanges, draftReset]⟩
  · intro s2
    simp [hasChanges]

/-- C7 witness: the draft "b" over the committed "a". -/
theorem C7_witness :
    hasChanges (setDraftValue { stored := JVal.jstr "a", draft := JVal.jstr "a" }
      (JVal.jstr "b")) = true ∧
    (draftSave true "k" { items := [], broken := false, quotaFull := false }
      (setDraftValue { stored := JVal.jstr "a", draft := JVal.jstr "a" }
        (JVal.jstr "b"))).1.stored = JVal.jstr "b" ∧
    hasChanges (draftSave true "k" { items := [], broken := false, quotaFull := false }
      (setDraftValue { stored := JVal.jstr "a", draft := JVal.jstr "a" }
        (JVal.jstr "b"))).1 = false :=
  ⟨(C7_thm "k" { items := [], broken := false, quotaFull := false }
      { stored := JVal.jstr "a", draft := JVal.jstr "a" } (JVal.jstr "b") (by decide)).1,
   (C7_thm "k" { items := [], broken := false, quotaFull := false }
      { stored := JVal.jstr "a", draft := JVal.jstr "a" } (JVal.jstr "b") (by decide)).2.1,
   (C7_thm "k" { items := [], broken := false, quotaFull := false }
      { stored := JVal.jstr "a", draft := JVal.jstr "a" } (JVal.jstr "b") (by decide)).2.2.1⟩

/-- C8.  Calling remove() twice in succession on a working storage area:
after each call the cell's value is defaultValue, the storage area holds
no entry for the key, and no exception escapes. -/
theorem C8_thm (key : String) (defaultValue : JVal) (area : StorageArea)
    (hb : area.broken = false) :
    (removeCell true key defaultValue area).value = defaultValue ∧
    (removeCell true key defaultValue area).area.lookup key = none ∧
    (removeCell true key defaultValue area).threw = false ∧
    (removeCell true key defaultValue
      (removeCell true key defaultValue area).area).value = defaultValue ∧
    (removeCell true key defaultValue
      (removeCell true key defaultValue area).area).area.lookup key = none ∧
    (removeCell true key defaultValue
      (removeCell true key defaultValue area).area).threw = false := by
  refine ⟨?_, ?_, ?_, ?_, ?_, ?_⟩ <;>
    simp [removeCell, StorageArea.getItemE, StorageArea.removeItemE, hb,
      StorageArea.lookup, find?_filter_key_eq_none]

/-- C8 witness: the double remove at key "k" on an area storing "a". -/
theorem C8_witness :
    (removeCell true "k" (JVal.jstr "d")
      { items := [("k", "a")], broken := false, quotaFull := false }).value = JVal.jstr "d" ∧
    (removeCell true "k" (JVal.jstr "d")
      { items := [("k", "a")], broken := false, quotaFull := false }).area.lookup "k" = none ∧
    (removeCell true "k" (JVal.jstr "d")
      (removeCell true "k" (JVal.jstr "d")
        { items := [("k", "a")], broken := false, quotaFull := false }).area).value =
      JVal.jstr "d" ∧
    (removeCell true "k" (JVal.jstr "d")
      (removeCell true "k" (JVal.jstr "d")
        { items := [("k", "a")], broken := false, quotaFull := false }).area).area.lookup "k" =
      none :=
  ⟨(C8_thm "k" (JVal.jstr "d")
      { items := [("k", "a")], broken := false, quotaFull := false } rfl).1,
   (C8_thm "k" (JVal.jstr "d")
      { items := [("k", "a")], broken := false, quotaFull := false } rfl).2.1,
   (C8_thm "k" (JVal.jstr "d")
      { items := [("k", "a")], broken := false, quotaFull := false } rfl).2.2.2.1,
   (C8_thm "k" (JVal.jstr "d")
      { items := [("k", "a")], broken := false, quotaFull := false } rfl).2.2.2.2.1⟩

/-- C9.  The claim says the two getLocalStorage variants agree on every
shared input.  They do not: on an area storing the empty string under the
key, with the string default "x", the current variant (src/src) returns
the stored "" (its absence check is item === null) while the older
variant (src/unnamed/part_003) returns the default (its check is the
falsy !item). -/
theorem C9_counterexample :
    (getLocalStorage parseNone true "k" (some (JVal.jstr "x")) none
      { items := [("k", "")], broken := false, quotaFull := false }).value = JVal.jstr "" ∧
    getLocalStorageV0 parseNone true "k" (some (JVal.jstr "x"))
      { items := [("k", "")], broken := false, quotaFull := false } = JVal.jstr "x" ∧
    JVal.jstr "" ≠ JVal.jstr "x" := by
  refine ⟨rfl, rfl, by simp⟩

/-- C9 (amended).  With no configs argument, the value field of the
current getLocalStorage equals the older variant's result on every input
on which the stored item is not the empty string (every environment,
storage state and optional default); the two diverge only at a stored
empty string. -/
theorem C9_amended_thm (parse : String → Option JVal) (hw : Bool) (key : String)
    (d : Option JVal) (area : StorageArea) (h : area.lookup key ≠ some "") :
    (getLocalStorage parse hw key d none area).value =
      getLocalStorageV0 parse hw key d area := by
  cases hw with
  | false => simp [getLocalStorage, getLocalStorageV0, fallbackValue_no_configs]
  | true =>
    cases hb : area.broken with
    | true =>
        simp [getLocalStorage, getLocalStorageV0, StorageArea.getItemE, hb,
          fallbackValue_no_configs]
    | false =>
      cases hl : area.lookup key with
      | none =>
          simp [getLocalStorage, getLocalStorageV0, StorageArea.getItemE, hb, hl,
            fallbackValue_no_configs]
      | some s =>
        have hs : s ≠ "" := by
          intro hcontra
          exact h (by rw [hl, hcontra])
        cases hd : isStringOpt d with
        | true =>
            simp [getLocalStorage, getLocalStorageV0, StorageArea.getItemE, hb, hl,
              hd, hs]
        | false =>
          cases hp : parse s with
          | none =>
              simp [getLocalStorage, getLocalStorageV0, StorageArea.getItemE, hb, hl,
                hd, hs, hp, fallbackValue_no_configs]
          | some p =>
              simp [getLocalStorage, getLocalStorageV0, StorageArea.getItemE, hb, hl,
                hd, hs, hp]

/-- C9 witness: the two variants agree at a concrete non-empty stored
item. -/
theorem C9_witness :
    (getLocalStorage parseNone true "k" (some (JVal.jstr "x")) none
      { items := [("k", "v")], broken := false, quotaFull := false }).value =
    getLocalStorageV0 parseNone true "k" (some (JVal.jstr "x"))
      { items := [("k", "v")], broken := false, quotaFull := false } :=
  C9_amended_thm parseNone true "k" (some (JVal.jstr "x"))
    { items := [("k", "v")], broken := false, quotaFull := false } (by decide)

/-- C10.  getLocalStorage (src/src) always returns a record (every
failure path is caught inside: the embedding is a total function), and
its isNull field is true exactly when no decodable stored item was
obtained: no window, a throwing storage access, an absent key, or a
failing JSON.parse under a non-string default.  In that case the value
field is the fallback chain defaultValue ?? configs entry ?? null. -/
theorem C10_thm (parse : String → Option JVal) (hw : Bool) (key : String)
    (d : Option JVal) (cfgs : Option (List (String × JVal))) (area : StorageArea) :
    ((getLocalStorage parse hw key d cfgs area).isNull = true ↔
      (hw = false ∨ area.broken = true ∨ area.lookup key = none ∨
        (∃ s, area.lookup key = some s ∧ isStringOpt d = false ∧ parse s = none))) ∧
    ((getLocalStorage parse hw key d cfgs area).isNull = true →
      (getLocalStorage parse hw key d cfgs area).value = fallbackValue d key cfgs) := by
  cases hw with
  | false => simp [getLocalStorage]
  | true =>
    cases hb : area.broken with
    | true => simp [getLocalStorage, StorageArea.getItemE, hb]
    | false =>
      cases hl : area.lookup key with
      | none => simp [getLocalStorage, StorageArea.getItemE, hb, hl]
      | some s =>
        cases hd : isStringOpt d with
        | true => simp [getLocalStorage, StorageArea.getItemE, hb, hl, hd]
        | false =>
          cases hp : parse s with
          | none => simp [getLocalStorage, StorageArea.getItemE, hb, hl, hd, hp]
          | some p => simp [getLocalStorage, StorageArea.getItemE, hb, hl, hd, hp]

/-- C10 witness: at an empty storage area with no default and no configs,
isNull is true and the value is null. -/
theorem C10_witness :
    (getLocalStorage parseNone true "k" none none
      { items := [], broken := false, quotaFull := false }).isNull = true ∧
    (getLocalStorage parseNone true "k" none none
      { items := [], broken := false, quotaFull := false }).value = JVal.jnull :=
  ⟨(C10_thm parseNone true "k" none none
      { items := [], broken := false, quotaFull := false }).1.mpr
      (Or.inr (Or.inr (Or.inl rfl))),
   ((C10_thm parseNone true "k" none none
      { items := [], broken := false, quotaFull := false }).2 rfl).trans rfl⟩
